import Mathlib

/-!
# Verification of the ml_api risk-assessment service

Shallow embedding of the two Flask endpoints (`src/main.py`, `src/app.py`):
the rule-based scorer `compute_risk`, the probability bucketizer, the two
`predict` request handlers, and the report-content assembly of `_build_pdf`.
Python floats are modelled as exact rationals; Python `round(x, n)` is
modelled as round-half-to-even on `ℚ`.
-/

namespace MlApi

/-- A JSON value supplied for one vital, abstracted by how Python's
`float()` treats it: `num q` is a value that coerces to the number `q`
(numbers and numeric strings), `nonNum` is a value `float()` rejects
(null, non-numeric string, list, ...). -/
inductive PyVal where
  | num (q : ℚ)
  | nonNum
deriving DecidableEq, Repr

/-- Python `float()` as a partial function on the abstracted values. -/
def pyFloat? : PyVal → Option ℚ
  | .num q => some q
  | .nonNum => Option.none

/-- The caller-facing errors of the two predict endpoints. -/
inductive ApiError where
  /-- `main.py` `_to_float`: `ValueError("'{name}' must be a number")`,
  raised for the first field that is absent or non-coercible. -/
  | mustBeNumber (name : String)
  /-- `app.py` line 41: `"Missing fields: ..."` listing every absent key. -/
  | missingFields (names : List String)
  /-- `app.py` line 49: `"All fields must be numbers"` (batch, unnamed). -/
  | allFieldsMustBeNumbers
  /-- `app.py` line 36: `"Model not loaded. Train first."`. -/
  | modelNotLoaded
deriving DecidableEq, Repr

/-- Round-half-to-even to an integer, as Python's `round` on exact values. -/
def roundHalfEven (q : ℚ) : ℤ :=
  if q - ⌊q⌋ < 1/2 then ⌊q⌋
  else if 1/2 < q - ⌊q⌋ then ⌊q⌋ + 1
  else if 2 ∣ ⌊q⌋ then ⌊q⌋ else ⌊q⌋ + 1

/-- Python `round(q, ndigits)` on exact rational values. -/
def pyRound (ndigits : ℕ) (q : ℚ) : ℚ :=
  (roundHalfEven (q * 10 ^ ndigits) : ℚ) / 10 ^ ndigits

/-- The severity score accumulated by `compute_risk` (`main.py` lines 20-54):
each vital contributes the increment of the single highest matching band. -/
def risk_score (bp heart_rate sugar bmi : ℚ) : ℚ :=
  (if bp ≥ 180 then 3 else if bp ≥ 160 then 5/2 else if bp ≥ 140 then 2
   else if bp ≤ 90 then 1/2 else 0)
  + (if heart_rate ≥ 120 then 2 else if heart_rate ≥ 100 then 3/2
     else if heart_rate ≤ 50 then 1 else 0)
  + (if sugar ≥ 250 then 3 else if sugar ≥ 180 then 2
     else if sugar ≥ 126 then 1 else 0)
  + (if bmi ≥ 35 then 5/2 else if bmi ≥ 30 then 2
     else if bmi ≤ 18.5 then 1 else 0)

/-- The score → (label, probability) band mapping (`main.py` lines 56-65). -/
def band_prob (score : ℚ) : String × ℚ :=
  if score ≤ 2 then ("Low", min (35/100) (15/100 + (1/10) * score))
  else if score ≤ 4 then ("Medium", min (7/10) (45/100 + (1/10) * (score - 2)))
  else ("High", min (95/100) (7/10 + (5/100) * (score - 4)))

/-- `compute_risk` (`main.py` lines 15-69): score the vitals, map the score
to a band, clamp the probability into `[0.01, 0.99]`. -/
def compute_risk (bp heart_rate sugar bmi : ℚ) : String × ℚ :=
  ((band_prob (risk_score bp heart_rate sugar bmi)).1,
   max (1/100) (min (99/100) (band_prob (risk_score bp heart_rate sugar bmi)).2))

/-- `bucketize` (`app.py` lines 23-30). -/
def bucketize (prob : ℚ) : String :=
  if prob < 33/100 then "Low" else if prob < 66/100 then "Medium" else "High"

/-- A request body: a JSON object as an association list. -/
abbrev Payload := List (String × PyVal)

/-- `main.py` `_to_float(payload.get(name), name)`: a missing key gives
Python `None`, which `float()` rejects, so absence and non-coercibility
raise the same `ValueError`. -/
def to_float (x : Option PyVal) (name : String) : Except ApiError ℚ :=
  match x with
  | some (.num q) => .ok q
  | _ => .error (.mustBeNumber name)

/-- The successful response body of `main.py`'s `/predict`. -/
structure MainResponse where
  risk : String
  probability : ℚ
  inputs : ℚ × ℚ × ℚ × ℚ
deriving DecidableEq, Repr

/-- `main.py`'s `predict` handler (lines 73-92) on a JSON-object body:
coerce the four vitals in order (first failure wins), score with
`compute_risk`, respond with the probability rounded to 3 decimals. -/
def main_predict (payload : Payload) : Except ApiError MainResponse := do
  let bp ← to_float (payload.lookup "bp") "bp"
  let heart_rate ← to_float (payload.lookup "heart_rate") "heart_rate"
  let sugar ← to_float (payload.lookup "sugar") "sugar"
  let bmi ← to_float (payload.lookup "bmi") "bmi"
  let rp := compute_risk bp heart_rate sugar bmi
  .ok ⟨rp.1, pyRound 3 rp.2, (bp, heart_rate, sugar, bmi)⟩

/-- The successful response body of `app.py`'s `/predict`. -/
structure AppResponse where
  risk : String
  probability : ℚ
deriving DecidableEq, Repr

/-- The required keys, in the order `app.py` line 39 checks them. -/
def requiredFields : List String := ["bp", "heart_rate", "sugar", "bmi"]

/-- The keys of `requiredFields` absent from the payload, in stable order
(`app.py` line 39). -/
def missingOf (data : Payload) : List String :=
  requiredFields.filter (fun k => (data.lookup k).isNone)

/-- A loaded model artifact, abstracted to its inference function: the
positive-class probability for a feature vector `[bp, hr, sugar, bmi]`. -/
abbrev Model := ℚ → ℚ → ℚ → ℚ → ℚ

/-- `app.py`'s `predict` handler (lines 33-58): refuse if no artifact is
loaded, then list all missing keys, then coerce all four vitals (batch
failure), then infer, bucketize, and respond with the probability rounded
to 4 decimals. -/
def app_predict : Option Model → Payload → Except ApiError AppResponse
  | Option.none, _ => .error .modelNotLoaded
  | some m, data =>
    if missingOf data ≠ [] then .error (.missingFields (missingOf data))
    else
      match (data.lookup "bp").bind pyFloat?,
            (data.lookup "heart_rate").bind pyFloat?,
            (data.lookup "sugar").bind pyFloat?,
            (data.lookup "bmi").bind pyFloat? with
      | some bp, some hr, some sugar, some bmi =>
        .ok ⟨bucketize (m bp hr sugar bmi), pyRound 4 (m bp hr sugar bmi)⟩
      | _, _, _, _ => .error .allFieldsMustBeNumbers

/-! ## Report assembly (`app.py` `_build_pdf`, lines 95-162)

Cell values are modelled as the display strings Python's `str()` produces;
the assembly logic (field selection, capping, ordering, fallbacks) is
embedded exactly. -/

/-- A historical reading for the report: field name to display string. -/
abbrev Reading := List (String × String)

/-- The fixed header row of the readings table (`app.py` line 129). -/
def tableHeader : List String :=
  ["Date", "Systolic", "Diastolic", "Heart Rate", "Glucose", "BMI"]

/-- One table row (`app.py` lines 130-138): `str(r.get(key, ''))` for the
six fixed keys; an absent key renders as the empty string. -/
def reading_row (r : Reading) : List String :=
  [(r.lookup "date").getD "", (r.lookup "systolic").getD "",
   (r.lookup "diastolic").getD "", (r.lookup "heartRate").getD "",
   (r.lookup "sugar").getD "", (r.lookup "bmi").getD ""]

/-- The assembled readings table (`app.py` lines 128-138): header plus one
row for each of the first five supplied readings, in supplied order. -/
def readings_table (readings : List Reading) : List (List String) :=
  tableHeader :: (readings.take 5).map reading_row

/-- Python truthiness of an optional string: `None` and `""` are falsy. -/
def strTruthy : Option String → Bool
  | Option.none => false
  | some s => s ≠ ""

/-- The summary paragraph (`app.py` lines 151-160): a truthy `ai_summary`
is used verbatim; otherwise, when the prediction has both `risk` and
`probability` (each given here as its display string), the summary is
synthesized; otherwise the falsy summary falls through `or` to `"N/A"`. -/
def summary_paragraph (ai_summary : Option String)
    (risk proba : Option String) : String :=
  let s :=
    if strTruthy ai_summary then ai_summary
    else
      match risk, proba with
      | some r, some p =>
        some ("Risk: " ++ r ++ " (probability " ++ p ++ ")")
      | _, _ => ai_summary
  if strTruthy s then s.getD "N/A" else "N/A"

/-- A request body carrying all four vitals as plain numbers. -/
def samplePayload : Payload :=
  [("bp", .num 120), ("heart_rate", .num 70), ("sugar", .num 100), ("bmi", .num 24)]

/-! ## Helper lemmas -/

theorem roundHalfEven_ge_floor (q : ℚ) : ⌊q⌋ ≤ roundHalfEven q := by
  unfold roundHalfEven
  split
  · exact le_refl _
  · split
    · omega
    · split <;> omega

theorem roundHalfEven_le_ceil (q : ℚ) : roundHalfEven q ≤ ⌈q⌉ := by
  have hfc : ⌊q⌋ ≤ ⌈q⌉ := Int.floor_le_ceil q
  unfold roundHalfEven
  split
  · exact hfc
  · have hlt : (⌊q⌋ : ℚ) < q := by
      have hge : ¬ (q - ⌊q⌋ < 1/2) := by assumption
      push_neg at hge
      linarith
    have hc : ⌊q⌋ < ⌈q⌉ := Int.lt_ceil.mpr hlt
    split
    · omega
    · split <;> omega

theorem pyRound_bounds (n : ℕ) (A B : ℤ) (q : ℚ)
    (h1 : (A : ℚ) ≤ q * 10 ^ n) (h2 : q * 10 ^ n ≤ (B : ℚ)) :
    (A : ℚ) / 10 ^ n ≤ pyRound n q ∧ pyRound n q ≤ (B : ℚ) / 10 ^ n := by
  have hA : A ≤ roundHalfEven (q * 10 ^ n) :=
    le_trans (Int.le_floor.mpr h1) (roundHalfEven_ge_floor _)
  have hB : roundHalfEven (q * 10 ^ n) ≤ B :=
    le_trans (roundHalfEven_le_ceil _) (Int.ceil_le.mpr h2)
  have hpos : (0 : ℚ) < 10 ^ n := by positivity
  unfold pyRound
  constructor
  · exact (div_le_div_iff_of_pos_right hpos).mpr (by exact_mod_cast hA)
  · exact (div_le_div_iff_of_pos_right hpos).mpr (by exact_mod_cast hB)

theorem compute_risk_prob_bounds (bp hr sugar bmi : ℚ) :
    1/100 ≤ (compute_risk bp hr sugar bmi).2 ∧
      (compute_risk bp hr sugar bmi).2 ≤ 99/100 := by
  unfold compute_risk
  exact ⟨le_max_left _ _, max_le (by norm_num) (min_le_left _ _)⟩

theorem main_predict_ok_shape (payload : Payload) (r : MainResponse)
    (h : main_predict payload = .ok r) :
    ∃ bp hr sugar bmi : ℚ,
      r = ⟨(compute_risk bp hr sugar bmi).1,
           pyRound 3 (compute_risk bp hr sugar bmi).2, (bp, hr, sugar, bmi)⟩ := by
  unfold main_predict at h
  cases hb : to_float (payload.lookup "bp") "bp" with
  | error e => rw [hb] at h; exact absurd h (by simp [Bind.bind, Except.bind])
  | ok bp =>
    rw [hb] at h
    cases hh : to_float (payload.lookup "heart_rate") "heart_rate" with
    | error e => rw [hh] at h; exact absurd h (by simp [Bind.bind, Except.bind])
    | ok hr =>
      rw [hh] at h
      cases hs : to_float (payload.lookup "sugar") "sugar" with
      | error e => rw [hs] at h; exact absurd h (by simp [Bind.bind, Except.bind])
      | ok sugar =>
        rw [hs] at h
        cases hm : to_float (payload.lookup "bmi") "bmi" with
        | error e => rw [hm] at h; exact absurd h (by simp [Bind.bind, Except.bind])
        | ok bmi =>
          rw [hm] at h
          simp only [Bind.bind, Except.bind, Except.ok.injEq] at h
          exact ⟨bp, hr, sugar, bmi, h.symm⟩

theorem app_predict_ok_shape (m : Model) (data : Payload) (r : AppResponse)
    (h : app_predict (some m) data = .ok r) :
    ∃ bp hr sugar bmi : ℚ,
      r = ⟨bucketize (m bp hr sugar bmi), pyRound 4 (m bp hr sugar bmi)⟩ := by
  simp only [app_predict] at h
  split at h
  · exact absurd h (by simp)
  · split at h
    · rename_i bp hr sugar bmi heq1 heq2 heq3 heq4
      simp only [Except.ok.injEq] at h
      exact ⟨bp, hr, sugar, bmi, h.symm⟩
    · exact absurd h (by simp)

theorem app_predict_missing (m : Model) (data : Payload)
    (h : missingOf data ≠ []) :
    app_predict (some m) data = .error (.missingFields (missingOf data)) := by
  simp only [app_predict]
  rw [if_pos h]

/-! ## Claims -/

/-- C2, counterexample: at bp=80, hr=60, glucose=70, bmi=22 the claimed
outputs (score 0, probability 0.15) do not hold on the code: bp=80
matches the `bp <= 90` band of `compute_risk`, so the score is 0.5 and
the probability 0.20. -/
theorem c2_counterexample :
    risk_score 80 60 70 22 = 1/2 ∧
      compute_risk 80 60 70 22 = ("Low", 1/5) ∧
      ¬(risk_score 80 60 70 22 = 0 ∧
        (compute_risk 80 60 70 22).2 = 15/100) := by
  refine ⟨by norm_num [risk_score],
    by norm_num [compute_risk, risk_score, band_prob], fun hc => ?_⟩
  have h0 := hc.1
  norm_num [risk_score] at h0

/-- C2, amended: for bp=80, heart_rate=60, glucose=70, bmi=22 the
rule-based Scorer computes score = 0.5 (the `bp <= 90` band fires) and
returns label Low with probability 0.20; the endpoint response carries
that label and probability (3-decimal rounding of 0.2 is exact). -/
theorem c2_theorem :
    risk_score 80 60 70 22 = 1/2 ∧
      compute_risk 80 60 70 22 = ("Low", 1/5) ∧
      main_predict [("bp", .num 80), ("heart_rate", .num 60),
          ("sugar", .num 70), ("bmi", .num 22)] =
        .ok ⟨"Low", 1/5, (80, 60, 70, 22)⟩ := by
  refine ⟨by norm_num [risk_score],
    by norm_num [compute_risk, risk_score, band_prob], ?_⟩
  have hcr : compute_risk 80 60 70 22 = ("Low", 1/5) := by
    norm_num [compute_risk, risk_score, band_prob]
  calc main_predict [("bp", .num 80), ("heart_rate", .num 60),
          ("sugar", .num 70), ("bmi", .num 22)]
      = .ok ⟨(compute_risk 80 60 70 22).1,
          pyRound 3 (compute_risk 80 60 70 22).2, (80, 60, 70, 22)⟩ := rfl
    _ = .ok ⟨"Low", 1/5, (80, 60, 70, 22)⟩ := by
        rw [hcr]
        norm_num [pyRound, roundHalfEven]

/-- C3, counterexample: on the rule-based endpoint the input
`{bp: 120, heart_rate: 70}` does not produce a missing-fields error
listing sugar and bmi: `_to_float(payload.get("sugar"), "sugar")` raises
first, naming only `sugar`. -/
theorem c3_counterexample :
    main_predict [("bp", .num 120), ("heart_rate", .num 70)] =
        .error (.mustBeNumber "sugar") ∧
      ApiError.mustBeNumber "sugar" ≠
        ApiError.missingFields ["sugar", "bmi"] :=
  ⟨rfl, fun h => nomatch h⟩

/-- C3, amended: the model-backed endpoint fails with MissingFields
listing every absent key in the stable order bp, heart_rate, sugar, bmi;
for `{bp: 120, heart_rate: 70}` it lists exactly sugar and bmi. The
rule-based endpoint instead fails on the first absent key with the error
that that one field must be a number: the same input yields only
`'sugar' must be a number`. -/
theorem c3_theorem :
    (∀ (m : Model) (data : Payload), missingOf data ≠ [] →
        app_predict (some m) data = .error (.missingFields (missingOf data))) ∧
      app_predict (some fun _ _ _ _ => 1/2)
          [("bp", .num 120), ("heart_rate", .num 70)] =
        .error (.missingFields ["sugar", "bmi"]) ∧
      missingOf [("bp", .num 120), ("heart_rate", .num 70)] =
        ["sugar", "bmi"] ∧
      main_predict [("bp", .num 120), ("heart_rate", .num 70)] =
        .error (.mustBeNumber "sugar") :=
  ⟨app_predict_missing, rfl, rfl, rfl⟩

/-- C3, witness: the quantified part of the amended claim at a concrete
payload with only `bp` present. -/
theorem c3_theorem_witness :
    app_predict (some fun _ _ _ _ => 1/2) [("bp", PyVal.num 120)] =
      .error (.missingFields ["heart_rate", "sugar", "bmi"]) :=
  c3_theorem.1 (fun _ _ _ _ => 1/2) [("bp", PyVal.num 120)] (by decide)

/-- C4, counterexample: with no artifact loaded, a request missing three
required fields yields the model-not-loaded error, not MissingFields:
`app.py` checks `model is None` before any validation. -/
theorem c4_counterexample :
    app_predict Option.none [("bp", PyVal.num 120)] =
        .error .modelNotLoaded ∧
      ApiError.modelNotLoaded ≠
        ApiError.missingFields ["heart_rate", "sugar", "bmi"] :=
  ⟨rfl, fun h => nomatch h⟩

/-- C4, amended: when an artifact is loaded, validation precedes strategy
dispatch — a payload with missing keys yields MissingFields and a
four-key payload with a non-coercible value yields the type error, in
both cases independently of the loaded model. But the availability check
precedes validation: with no artifact loaded every request, including one
with missing fields, yields the model-not-loaded error. -/
theorem c4_theorem :
    (∀ (m m' : Model) (data : Payload), missingOf data ≠ [] →
        app_predict (some m) data = app_predict (some m') data) ∧
      (∀ (m : Model) (data : Payload), missingOf data ≠ [] →
        app_predict (some m) data = .error (.missingFields (missingOf data))) ∧
      (∀ (m m' : Model) (v1 v2 v3 v4 : PyVal),
        app_predict (some m) [("bp", v1), ("heart_rate", v2),
            ("sugar", v3), ("bmi", v4)] = .error .allFieldsMustBeNumbers →
        app_predict (some m') [("bp", v1), ("heart_rate", v2),
            ("sugar", v3), ("bmi", v4)] = .error .allFieldsMustBeNumbers) ∧
      (∀ data : Payload,
        app_predict Option.none data = .error .modelNotLoaded) := by
  refine ⟨?_, app_predict_missing, ?_, fun data => rfl⟩
  · intro m m' data h
    rw [app_predict_missing m data h, app_predict_missing m' data h]
  · intro m m' v1 v2 v3 v4 h
    cases v1 <;> cases v2 <;> cases v3 <;> cases v4 <;>
      first
        | rfl
        | exact absurd h (by simp [app_predict, missingOf, requiredFields,
            List.lookup, pyFloat?])

/-- C4, witness: the amended claim's quantified parts at concrete inputs:
a loaded model with one key missing, a loaded model with a non-coercible
`bp`, and the unloaded-model request. -/
theorem c4_theorem_witness :
    app_predict (some fun _ _ _ _ => 1/2) [("bp", PyVal.num 120)] =
        app_predict (some fun _ _ _ _ => 3/4) [("bp", PyVal.num 120)] ∧
      app_predict (some fun _ _ _ _ => 3/4)
          [("bp", PyVal.nonNum), ("heart_rate", PyVal.num 70),
           ("sugar", PyVal.num 100), ("bmi", PyVal.num 24)] =
        .error .allFieldsMustBeNumbers ∧
      app_predict Option.none [] = .error .modelNotLoaded :=
  ⟨c4_theorem.1 (fun _ _ _ _ => 1/2) (fun _ _ _ _ => 3/4)
      [("bp", PyVal.num 120)] (by decide),
   c4_theorem.2.2.1 (fun _ _ _ _ => 1/2) (fun _ _ _ _ => 3/4)
      PyVal.nonNum (PyVal.num 70) (PyVal.num 100) (PyVal.num 24) rfl,
   c4_theorem.2.2.2 []⟩

/-- C5, counterexample: the Medium branch of the band mapping evaluated
at score = 4.0 yields probability 0.65, not 0.70 — the mapping is not
continuous at that boundary. A concrete input reaching score 4
(bp=180, hr=50) gets probability 0.65. -/
theorem c5_counterexample :
    band_prob 4 = ("Medium", 65/100) ∧ (65/100 : ℚ) ≠ 7/10 ∧
      compute_risk 180 50 70 22 = ("Medium", 65/100) :=
  ⟨by norm_num [band_prob], by norm_num,
   by norm_num [compute_risk, risk_score, band_prob]⟩

/-- C5, amended: the score→probability mapping steps up from 0.35 to 0.45
at the band boundary score = 2.0 (the Low branch at 2.0 yields 0.35,
while every Medium-band score has probability at least 0.45), and it is
likewise discontinuous at score = 4.0: the Medium branch at 4.0 yields
0.65, while every High-band score has probability at least 0.70 — a
second 0.05 step, not continuity. -/
theorem c5_theorem :
    band_prob 2 = ("Low", 35/100) ∧
      (∀ s : ℚ, 2 < s → s ≤ 4 →
        (band_prob s).2 = min (7/10) (45/100 + (1/10) * (s - 2)) ∧
          45/100 ≤ (band_prob s).2) ∧
      band_prob 4 = ("Medium", 65/100) ∧
      (∀ s : ℚ, 4 < s →
        (band_prob s).2 = min (95/100) (7/10 + (5/100) * (s - 4)) ∧
          7/10 ≤ (band_prob s).2) := by
  refine ⟨by norm_num [band_prob], ?_, by norm_num [band_prob], ?_⟩
  · intro s h1 h2
    have h0 : ¬ s ≤ 2 := by linarith
    have hb : (band_prob s).2 = min (7/10) (45/100 + (1/10) * (s - 2)) := by
      simp only [band_prob, if_neg h0, if_pos h2]
    exact ⟨hb, by rw [hb]; exact le_min (by norm_num) (by linarith)⟩
  · intro s h1
    have h2 : ¬ s ≤ 2 := by linarith
    have h3 : ¬ s ≤ 4 := by linarith
    have hb : (band_prob s).2 = min (95/100) (7/10 + (5/100) * (s - 4)) := by
      simp only [band_prob, if_neg h2, if_neg h3]
    exact ⟨hb, by rw [hb]; exact le_min (by norm_num) (by linarith)⟩

/-- C5, witness: the quantified parts of the amended claim at the
concrete scores 3 and 5. -/
theorem c5_theorem_witness :
    ((band_prob 3).2 = min (7/10) (45/100 + (1/10) * ((3:ℚ) - 2)) ∧
        45/100 ≤ (band_prob 3).2) ∧
      ((band_prob 5).2 = min (95/100) (7/10 + (5/100) * ((5:ℚ) - 4)) ∧
        7/10 ≤ (band_prob 5).2) :=
  ⟨c5_theorem.2.1 3 (by norm_num) (by norm_num),
   c5_theorem.2.2.2 5 (by norm_num)⟩

/-- C7: `bucketize` is total and maps every probability below 0.33 to
Low, every probability in [0.33, 0.66) to Medium, and everything else to
High, boundary values belonging to the upper-adjacent band; the six
sample points evaluate as the spec states. -/
theorem c7_theorem :
    (∀ p : ℚ, p < 33/100 → bucketize p = "Low") ∧
      (∀ p : ℚ, 33/100 ≤ p → p < 66/100 → bucketize p = "Medium") ∧
      (∀ p : ℚ, 66/100 ≤ p → bucketize p = "High") ∧
      bucketize (329/1000) = "Low" ∧ bucketize (33/100) = "Medium" ∧
      bucketize (659/1000) = "Medium" ∧ bucketize (66/100) = "High" ∧
      bucketize 1 = "High" ∧ bucketize 0 = "Low" := by
  refine ⟨?_, ?_, ?_, by norm_num [bucketize], by norm_num [bucketize],
    by norm_num [bucketize], by norm_num [bucketize],
    by norm_num [bucketize], by norm_num [bucketize]⟩
  · intro p h
    simp only [bucketize, if_pos h]
  · intro p h1 h2
    simp only [bucketize, if_neg (not_lt.mpr h1), if_pos h2]
  · intro p h
    have h1 : ¬ p < 33/100 := by push_neg; linarith
    have h2 : ¬ p < 66/100 := by push_neg; linarith
    simp only [bucketize, if_neg h1, if_neg h2]

/-- C7, witness: the three quantified bands of the claim at the concrete
probabilities 0.1, 0.5 and 0.9. -/
theorem c7_theorem_witness :
    bucketize (1/10) = "Low" ∧ bucketize (1/2) = "Medium" ∧
      bucketize (9/10) = "High" :=
  ⟨c7_theorem.1 (1/10) (by norm_num),
   c7_theorem.2.1 (1/2) (by norm_num) (by norm_num),
   c7_theorem.2.2.1 (9/10) (by norm_num)⟩

/-- C1, counterexample: the model-backed endpoint does not clamp — an
artifact returning positive-class probability 1 (a value in [0,1]) makes
the response carry probability 1, outside [0.01, 0.99]. -/
theorem c1_counterexample :
    app_predict (some fun _ _ _ _ => 1) samplePayload = .ok ⟨"High", 1⟩ ∧
      ¬ ((1 : ℚ) ≤ 99/100) := by
  refine ⟨?_, by norm_num⟩
  calc app_predict (some fun _ _ _ _ => (1:ℚ)) samplePayload
      = .ok ⟨bucketize 1, pyRound 4 1⟩ := rfl
    _ = .ok ⟨"High", 1⟩ := by norm_num [bucketize, pyRound, roundHalfEven]

/-- C1, amended: the rule-based path clamps: for every four-vital input
the Scorer's probability, and the probability of every successful
rule-based response, lies in [0.01, 0.99]. The model-backed path does not
clamp: it returns the artifact's probability rounded to 4 decimals, so
for an artifact probability in [0,1] the response probability is only
guaranteed to lie in [0, 1]. -/
theorem c1_theorem :
    (∀ bp hr sugar bmi : ℚ,
        1/100 ≤ (compute_risk bp hr sugar bmi).2 ∧
          (compute_risk bp hr sugar bmi).2 ≤ 99/100) ∧
      (∀ (payload : Payload) (r : MainResponse),
        main_predict payload = .ok r →
          1/100 ≤ r.probability ∧ r.probability ≤ 99/100) ∧
      (∀ p : ℚ, 0 ≤ p → p ≤ 1 →
        app_predict (some fun _ _ _ _ => p) samplePayload =
            .ok ⟨bucketize p, pyRound 4 p⟩ ∧
          0 ≤ pyRound 4 p ∧ pyRound 4 p ≤ 1) := by
  refine ⟨compute_risk_prob_bounds, ?_, ?_⟩
  · intro payload r h
    obtain ⟨bp, hr, sugar, bmi, rfl⟩ := main_predict_ok_shape payload r h
    obtain ⟨hl, hu⟩ := compute_risk_prob_bounds bp hr sugar bmi
    have hb := pyRound_bounds 3 10 990 (compute_risk bp hr sugar bmi).2
      (by push_cast; norm_num; linarith) (by push_cast; norm_num; linarith)
    constructor
    · calc (1:ℚ)/100 = (10:ℚ)/10^3 := by norm_num
        _ ≤ _ := hb.1
    · calc pyRound 3 (compute_risk bp hr sugar bmi).2
          ≤ ((990:ℤ):ℚ)/10^3 := hb.2
        _ = 99/100 := by norm_num
  · intro p h0 h1
    have hb := pyRound_bounds 4 0 10000 p
      (by push_cast; norm_num; linarith) (by push_cast; norm_num; linarith)
    refine ⟨rfl, ?_, ?_⟩
    · calc (0:ℚ) = ((0:ℤ):ℚ)/10^4 := by norm_num
        _ ≤ _ := hb.1
    · calc pyRound 4 p ≤ ((10000:ℤ):ℚ)/10^4 := hb.2
        _ = 1 := by norm_num

/-- C1, witness: the amended claim at the minimum-band vitals, at a
concrete successful rule-based request, and at a model returning 1/2. -/
theorem c1_theorem_witness :
    (1/100 ≤ (compute_risk 80 60 70 22).2 ∧
        (compute_risk 80 60 70 22).2 ≤ 99/100) ∧
      (1/100 ≤ pyRound 3 (compute_risk 120 70 100 24).2 ∧
        pyRound 3 (compute_risk 120 70 100 24).2 ≤ 99/100) ∧
      (app_predict (some fun _ _ _ _ => 1/2) samplePayload =
          .ok ⟨bucketize (1/2), pyRound 4 (1/2)⟩ ∧
        0 ≤ pyRound 4 ((1:ℚ)/2) ∧ pyRound 4 ((1:ℚ)/2) ≤ 1) :=
  ⟨c1_theorem.1 80 60 70 22,
   c1_theorem.2.1 [("bp", .num 120), ("heart_rate", .num 70),
       ("sugar", .num 100), ("bmi", .num 24)]
     ⟨(compute_risk 120 70 100 24).1,
      pyRound 3 (compute_risk 120 70 100 24).2, (120, 70, 100, 24)⟩ rfl,
   c1_theorem.2.2 (1/2) (by norm_num) (by norm_num)⟩

/-- C6, counterexample: for an artifact probability of 0.1234 the
model-backed response carries 0.1234 — the 4-decimal rounding of
`app.py` — whereas rounding to 3 decimals would give 0.123. -/
theorem c6_counterexample :
    app_predict (some fun _ _ _ _ => 617/5000) samplePayload =
        .ok ⟨"Low", 617/5000⟩ ∧
      pyRound 3 (617/5000 : ℚ) = 123/1000 ∧
      (617/5000 : ℚ) ≠ 123/1000 := by
  refine ⟨?_, by norm_num [pyRound, roundHalfEven], by norm_num⟩
  calc app_predict (some fun _ _ _ _ => (617/5000:ℚ)) samplePayload
      = .ok ⟨bucketize (617/5000), pyRound 4 (617/5000)⟩ := rfl
    _ = .ok ⟨"Low", 617/5000⟩ := by
        norm_num [bucketize, pyRound, roundHalfEven]

/-- C6, amended: the rule-based endpoint's response probability is the
computed probability rounded to 3 decimal places, but the model-backed
endpoint's is the artifact probability rounded to 4 decimal places. -/
theorem c6_theorem :
    (∀ (payload : Payload) (r : MainResponse),
        main_predict payload = .ok r →
          ∃ bp hr sugar bmi : ℚ,
            r.probability = pyRound 3 (compute_risk bp hr sugar bmi).2) ∧
      (∀ (m : Model) (data : Payload) (r : AppResponse),
        app_predict (some m) data = .ok r →
          ∃ bp hr sugar bmi : ℚ,
            r.probability = pyRound 4 (m bp hr sugar bmi)) := by
  constructor
  · intro payload r h
    obtain ⟨bp, hr, sugar, bmi, rfl⟩ := main_predict_ok_shape payload r h
    exact ⟨bp, hr, sugar, bmi, rfl⟩
  · intro m data r h
    obtain ⟨bp, hr, sugar, bmi, rfl⟩ := app_predict_ok_shape m data r h
    exact ⟨bp, hr, sugar, bmi, rfl⟩

/-- C6, witness: the amended claim at one successful request per
endpoint. -/
theorem c6_theorem_witness :
    (∃ bp hr sugar bmi : ℚ,
        pyRound 3 (compute_risk 120 70 100 24).2 =
          pyRound 3 (compute_risk bp hr sugar bmi).2) ∧
      (∃ bp hr sugar bmi : ℚ,
        pyRound 4 ((1:ℚ)/2) = pyRound 4 ((1:ℚ)/2)) :=
  ⟨c6_theorem.1 [("bp", .num 120), ("heart_rate", .num 70),
       ("sugar", .num 100), ("bmi", .num 24)]
     ⟨(compute_risk 120 70 100 24).1,
      pyRound 3 (compute_risk 120 70 100 24).2, (120, 70, 100, 24)⟩ rfl,
   c6_theorem.2 (fun _ _ _ _ => 1/2) samplePayload
     ⟨bucketize (1/2), pyRound 4 (1/2)⟩ rfl⟩

theorem risk_summary_ne_empty (r p : String) :
    "Risk: " ++ r ++ " (probability " ++ p ++ ")" ≠ "" := by
  intro h
  have hl := congrArg String.length h
  simp only [String.length_append] at hl
  have h1 : (" (probability " : String).length = 14 := rfl
  have h2 : (")" : String).length = 1 := rfl
  have h3 : ("" : String).length = 0 := rfl
  omega

/-- C8, counterexample: an explicitly supplied empty summary string is
not used verbatim: Python's truthiness test treats it as absent, so with
a prediction available the summary is synthesized instead. -/
theorem c8_counterexample :
    summary_paragraph (some "") (some "Medium") (some "0.5") =
        "Risk: Medium (probability 0.5)" ∧
      "Risk: Medium (probability 0.5)" ≠ ("" : String) := by
  exact ⟨rfl, by decide⟩

/-- C8, amended: every nonempty supplied summary string is used verbatim;
an empty supplied summary is treated exactly like an absent one — the
summary is synthesized as "Risk: {label} (probability {probability})"
when the prediction carries both fields, and is the placeholder "N/A"
otherwise. -/
theorem c8_theorem :
    (∀ s : String, s ≠ "" → ∀ (r p : Option String),
        summary_paragraph (some s) r p = s) ∧
      (∀ a : Option String, strTruthy a = false → ∀ r p : String,
        summary_paragraph a (some r) (some p) =
          "Risk: " ++ r ++ " (probability " ++ p ++ ")") ∧
      summary_paragraph Option.none (some "Medium") (some "0.5") =
        "Risk: Medium (probability 0.5)" ∧
      (∀ a : Option String, strTruthy a = false → ∀ p : Option String,
        summary_paragraph a Option.none p = "N/A") ∧
      (∀ a : Option String, strTruthy a = false → ∀ r : String,
        summary_paragraph a (some r) Option.none = "N/A") := by
  refine ⟨?_, ?_, rfl, ?_, ?_⟩
  · intro s hs r p
    have ht : strTruthy (some s) = true := by simp [strTruthy, hs]
    simp [summary_paragraph, ht]
  · intro a ha r p
    cases a with
    | none => simp [summary_paragraph, strTruthy, risk_summary_ne_empty r p]
    | some s =>
      simp only [strTruthy] at ha
      have hs : s = "" := by simpa using ha
      subst hs
      simp [summary_paragraph, strTruthy, risk_summary_ne_empty r p]
  · intro a ha p
    simp [summary_paragraph, ha]
  · intro a ha r
    simp [summary_paragraph, ha]

/-- C8, witness: the amended claim at a nonempty summary, at an empty and
an absent summary with a full prediction, and at predictions missing a
field. -/
theorem c8_theorem_witness :
    summary_paragraph (some "hello") (some "Medium") (some "0.5") =
        "hello" ∧
      summary_paragraph (some "") (some "Medium") (some "0.5") =
        "Risk: Medium (probability 0.5)" ∧
      summary_paragraph Option.none Option.none (some "0.5") = "N/A" ∧
      summary_paragraph Option.none (some "Medium") Option.none = "N/A" :=
  ⟨c8_theorem.1 "hello" (by decide) (some "Medium") (some "0.5"),
   c8_theorem.2.1 (some "") rfl "Medium" "0.5",
   c8_theorem.2.2.2.1 Option.none rfl (some "0.5"),
   c8_theorem.2.2.2.2 Option.none rfl "Medium"⟩

/-- C9: the assembled readings table is the fixed 6-column header plus
one row per supplied reading, capped at the first five, in supplied
order; each row has exactly 6 cells and a reading with no sub-fields
renders as six empty strings; 7 supplied readings yield exactly the first
5 rows. -/
theorem c9_theorem :
    (∀ rs : List Reading,
        (readings_table rs).length = 1 + min 5 rs.length) ∧
      (∀ rs : List Reading, (readings_table rs).head? = some tableHeader) ∧
      (∀ (rs : List Reading) (i : ℕ), i < min 5 rs.length →
        (readings_table rs).get? (i + 1) = (rs.get? i).map reading_row) ∧
      (∀ r : Reading, (reading_row r).length = 6) ∧
      (∀ r1 r2 r3 r4 r5 r6 r7 : Reading,
        readings_table [r1, r2, r3, r4, r5, r6, r7] =
          [tableHeader, reading_row r1, reading_row r2, reading_row r3,
           reading_row r4, reading_row r5]) ∧
      reading_row [] = ["", "", "", "", "", ""] := by
  refine ⟨?_, fun rs => rfl, ?_, fun r => rfl, fun _ _ _ _ _ _ _ => rfl, rfl⟩
  · intro rs
    simp only [readings_table, List.length_cons, List.length_map,
      List.length_take]
    omega
  · intro rs i h
    simp only [readings_table, List.get?_cons_succ, List.get?_map]
    rw [List.get?_take (lt_of_lt_of_le h (min_le_left _ _))]

/-- C9, witness: the row-lookup part of the claim at seven empty readings
and row index 0. -/
theorem c9_theorem_witness :
    (readings_table [[], [], [], [], [], [], []]).get? 1 =
      (([[], [], [], [], [], [], []] : List Reading).get? 0).map
        reading_row :=
  c9_theorem.2.2.1 [[], [], [], [], [], [], []] 0 (by norm_num)

/-- C10: the Glucose cell of every assembled row is populated from the
reading's `sugar` key; a value supplied only under a `glucose` key is
ignored and that cell renders as the empty string. -/
theorem c10_theorem :
    (∀ r : Reading,
        (reading_row r).get? 4 = some ((r.lookup "sugar").getD "")) ∧
      (∀ v : String,
        reading_row [("glucose", v)] = ["", "", "", "", "", ""]) ∧
      (∀ v : String,
        (reading_row [("glucose", v), ("sugar", "100")]).get? 4 =
          some "100") :=
  ⟨fun r => rfl, fun v => rfl, fun v => rfl⟩

end MlApi
